import Mathlib

/-! Shallow embedding of `src/carrying.py` (the carrying-map module of the
macaw repository): the path-order utilities, the six-component carrying-map
state with its mutation primitives `append` and `trim`, and executable models
of `shortest_paths`, `identity_map` and `delete_branch_from_small`, whose
bodies raise Python exceptions on the paths the claims exercise. Python
methods mutate their receiver in place, so a method that raises still leaves
the receiver in the state it had when the exception fired; `PyOutcome`
records that state alongside the exception. -/

/-- Python exceptions the embedded code can raise. -/
inductive PyErr : Type where
  | assertionError : PyErr
  | attributeError : String → PyErr
  | nameError : String → PyErr
  | typeError : String → PyErr
  | valueError : String → PyErr
  deriving DecidableEq

/-- Outcome of a Python method that mutates its receiver in place: a normal
return, or an exception raised with the receiver left in the (possibly
already mutated) state it had when the exception fired. -/
inductive PyOutcome (σ : Type) : Type where
  | ok : σ → PyOutcome σ
  | raised : PyErr → σ → PyOutcome σ

/-- Embedding of `is_smaller_or_equal` (src/carrying.py line 35): whether
every entry of `array2 - array1` is `>= 0`. The Python version asserts the
two arrays have equal size; the theorems below carry that as a hypothesis. -/
def is_smaller_or_equal (array1 array2 : List Int) : Bool :=
  (List.zipWith (fun x y => y - x) array1 array2).all (fun d => decide (0 ≤ d))

/-- Embedding of `is_smaller` (src/carrying.py line 47): whether every entry
of `array2 - array1` is `> 0`. -/
def is_smaller (array1 array2 : List Int) : Bool :=
  (List.zipWith (fun x y => y - x) array1 array2).all (fun d => decide (0 < d))

/-- Embedding of `is_equal` (src/carrying.py line 59): whether every entry of
`array2` equals the corresponding entry of `array1`. -/
def is_equal (array1 array2 : List Int) : Bool :=
  (List.zipWith (fun x y => decide (y = x)) array1 array2).all (fun b => b)

/-- Embedding of `CarryingMap.shortest_paths` (src/carrying.py line 394). The
receiver's `_train_paths` array is passed as `tp`. The `for`/`else` loop
looks for a first position `i` whose path is `is_smaller_or_equal` to every
candidate's path and raises `ValueError` when none exists. When one is found,
the next statement, `ls = [indices(i)]`, calls the list `indices` instead of
indexing it, so the success branch raises `TypeError` instead of returning
the tied minimal indices. (The `def` line also omits `self`, so invoking it
as a bound method already raises a `TypeError` for its arity; the body is
embedded as the method its docstring documents it to be.) -/
def shortest_paths (tp : Nat → List Int) (indices : List Int) :
    Except PyErr (List Int) :=
  match (List.range indices.length).find? (fun i =>
      indices.all (fun j =>
        is_smaller_or_equal (tp ((indices.getD i 0).natAbs - 1))
          (tp (j.natAbs - 1)))) with
  | none => Except.error (PyErr.valueError "There is no shortest path!")
  | some _ => Except.error (PyErr.typeError "the list indices is not callable")

/-- The six-component state a `CarryingMap` owns (`__init__`,
src/carrying.py line 76). Rows of `train_paths` are measure vectors over the
large track's branches; `half_branch_map` is indexed by a side (`0` = START,
`1` = END) and a combined branch/cusp row; `hb_between_branches` by a side
and an ordered pair of combined rows. The two track references do not enter
the array updates; where a method consults the small track, that interface is
passed separately (`SmallTT` below). -/
structure CarryingState : Type where
  train_paths : Nat → List Int
  half_branch_map : Nat → Nat → Int
  hb_between_branches : Nat → Nat → Nat → Int
  cusp_index_offset : Nat
  cusp_map : Nat → Int

/-- The two kinds of combined rows (the `BRANCH`/`CUSP` constants). -/
inductive PathType : Type where
  | BRANCH : PathType
  | CUSP : PathType
  deriving DecidableEq

/-- Embedding of `CarryingMap._path_index` (src/carrying.py line 126). The
body computes the side (`a = 0 if index > 0 else 1`, no observable effect)
and then evaluates `typ == BRANCH`; `BRANCH` (like `CUSP`) is a name
`carrying.py` never imports or defines (line 25 imports only `LEFT, RIGHT,
START, END` from `constants`), so every call raises `NameError` before a
(side, row) pair is ever returned. -/
def path_index (_offset : Nat) (_typ : PathType) (_index : Int) :
    Except PyErr (Nat × Nat) :=
  Except.error (PyErr.nameError "BRANCH")

/-- Modelled from the spec: `to_index` is `TrainTrack._to_index`, imported
from `train_track0.py`, which is not under `src/`. Per the spec's data model,
`half_branch_map` has shape `(2, s+c)` with the first row for startings of
paths (positive signed indices) and the second for endings, so a signed
branch `b` converts to side `0` when positive and side `1` when negative, at
row `|b| - 1` (the same convention `_path_index` uses for branches). -/
def to_index (b : Int) : Nat × Nat :=
  (if 0 < b then 0 else 1, b.natAbs - 1)

/-- Embedding of `CarryingMap.append` (src/carrying.py line 135). Its first
statement computes `append_to = _path_index(typ1, -append_to_idx)`, so every
call raises the `NameError` coming out of `_path_index` before any array is
touched, leaving the receiver unchanged. The `ok` arm below translates the
three updates the body would perform on (side, row) pairs `append_to` and
`appended`: the destination row of `train_paths` accumulates the source row;
the destination's `half_branch_map` entry is overwritten by the source's; the
destination's `hb_between_branches` column accumulates the source's column
and then the destination's row is overwritten by the source's row as it
stands after the column update — it is dead code in the source as written. -/
def append (s : CarryingState) (typ1 : PathType) (append_to_idx : Int)
    (typ2 : PathType) (appended_path_idx : Int) : PyOutcome CarryingState :=
  match path_index s.cusp_index_offset typ1 (-append_to_idx) with
  | Except.error e => PyOutcome.raised e s
  | Except.ok append_to =>
    match path_index s.cusp_index_offset typ2 (-appended_path_idx) with
    | Except.error e => PyOutcome.raised e s
    | Except.ok appended =>
      let hb1 : Nat → Nat → Nat → Int := fun a i j =>
        if j = append_to.2 then
          s.hb_between_branches a i j + s.hb_between_branches a i appended.2
        else s.hb_between_branches a i j
      PyOutcome.ok
        { s with
          train_paths := fun r =>
            if r = append_to.2 then
              List.zipWith (· + ·) (s.train_paths append_to.2)
                (s.train_paths appended.2)
            else s.train_paths r
          half_branch_map := fun a r =>
            if a = append_to.1 ∧ r = append_to.2 then
              s.half_branch_map appended.1 appended.2
            else s.half_branch_map a r
          hb_between_branches := fun a i j =>
            if a = append_to.1 ∧ i = append_to.2 then
              hb1 appended.1 appended.2 j
            else hb1 a i j }

/-- Embedding of `CarryingMap.trim` (src/carrying.py line 263): the
destination row `|trim_from_idx| - 1` of `train_paths` decreases by the
source row, and the destination column of `hb_between_branches` decreases by
the source column; `half_branch_map` is not touched, and no other
`hb_between_branches` entry is written (the source's comments defer both
remaining updates to the caller). -/
def trim (s : CarryingState) (trim_from_idx trimmed_path_idx : Int) :
    CarryingState :=
  { s with
    train_paths := fun r =>
      if r = trim_from_idx.natAbs - 1 then
        List.zipWith (· - ·) (s.train_paths (trim_from_idx.natAbs - 1))
          (s.train_paths (trimmed_path_idx.natAbs - 1))
      else s.train_paths r
    hb_between_branches := fun a i j =>
      if j = trim_from_idx.natAbs - 1 then
        s.hb_between_branches a i j -
          s.hb_between_branches a i (trimmed_path_idx.natAbs - 1)
      else s.hb_between_branches a i j }

/-- Modelled from the spec: the small-track interface that
`delete_branch_from_small` consults (`is_trivalent`, `branch_type`,
`branch_endpoint`, `outgoing_branch` live in `train_track0.py` and
`train_track.py`, not under `src/`); the spec's external-interface section
lists exactly these operations. `branch_type_collapsible b` stands for the
test `branch_type(b) == SMALL_COLLAPSIBLE`. -/
structure SmallTT : Type where
  is_trivalent : Bool
  branch_type_collapsible : Int → Bool
  branch_endpoint : Int → Int
  outgoing_branch : Int → Nat → Int

/-- The in-place mutations `delete_branch_from_small` performs before its
`assert` statements (src/carrying.py lines 231-236): zero the `train_paths`
row of `|branch|`, zero both signed `half_branch_map` entries (at
`to_index(br)` and `to_index(-br)` for `br = |branch|`), and zero both
corresponding `hb_between_branches` rows. -/
def delete_zeroing (s : CarryingState) (branch : Int) : CarryingState :=
  let br : Int := (branch.natAbs : Int)
  { s with
    train_paths := fun r =>
      if r = branch.natAbs - 1 then (s.train_paths r).map (fun _ => 0)
      else s.train_paths r
    half_branch_map := fun a r =>
      if (a = (to_index br).1 ∧ r = (to_index br).2) ∨
          (a = (to_index (-br)).1 ∧ r = (to_index (-br)).2) then 0
      else s.half_branch_map a r
    hb_between_branches := fun a i j =>
      if (a = (to_index br).1 ∧ i = (to_index br).2) ∨
          (a = (to_index (-br)).1 ∧ i = (to_index (-br)).2) then 0
      else s.hb_between_branches a i j }

/-- Embedding of `CarryingMap.delete_branch_from_small` (src/carrying.py
line 227): the zeroing happens first, then the two `assert`s (trivalence and
collapsibility), then the turning test `outgoing_branch(sw, 0) == -branch`.
In the left-turning case the body reads `self._branch_to_cusp`, an attribute
no constructor of `CarryingMap` ever creates (`__init__` stores only the six
components), so the first loop statement raises `AttributeError`; the
right-turning case is a bare `pass`, so the method returns normally. -/
def delete_branch_from_small (tt : SmallTT) (s : CarryingState)
    (branch : Int) : PyOutcome CarryingState :=
  let s1 := delete_zeroing s branch
  if tt.is_trivalent then
    if tt.branch_type_collapsible branch then
      if tt.outgoing_branch (tt.branch_endpoint branch) 0 = -branch then
        PyOutcome.raised (PyErr.attributeError "_branch_to_cusp") s1
      else PyOutcome.ok s1
    else PyOutcome.raised PyErr.assertionError s1
  else PyOutcome.raised PyErr.assertionError s1

/-- The part of the track interface `identity_map` consults before it
fails. -/
structure TrackData : Type where
  branches : List Nat
  num_branches_if_made_trivalent : Nat

/-- Embedding of `CarryingMap.identity_map` (src/carrying.py line 163): after
the assertion `len(tt.branches()) <= max_num_branches`, the body builds the
identity `train_paths` array, the `half_branch_map` and `hb_between_branches`
arrays, and then executes `np.zeros(max_num_switches, dytpe=np.int)`, whose
misspelled keyword argument raises `TypeError` unconditionally; the locals
built so far are discarded with the exception, so no state escapes. (Were
that line repaired, the `return` statement would still read the undefined
name `branch_to_cusp_idx` and pass six arguments to the seven-parameter
constructor.) -/
def identity_map (tt : TrackData) : Except PyErr CarryingState :=
  if tt.branches.length ≤ tt.num_branches_if_made_trivalent then
    Except.error (PyErr.typeError "dytpe is an invalid keyword argument")
  else Except.error PyErr.assertionError

/-- Train paths carrying the spec's tie example: vectors `[1,2]`, `[1,2]`,
`[3,3]` in rows `0`, `1`, `2`. -/
def tiePaths : Nat → List Int := fun r =>
  if r = 0 then [1, 2] else if r = 1 then [1, 2] else
  if r = 2 then [3, 3] else []

/-- Train paths carrying the spec's incomparable example: vectors `[1,2]` and
`[2,1]` in rows `0` and `1`. -/
def incomparablePaths : Nat → List Int := fun r =>
  if r = 0 then [1, 2] else if r = 1 then [2, 1] else []

/-- A concrete carrying state over a 2-branch large track, with stored
measure vectors `[2,0]` (row 0) and `[0,3]` (row 1), pairwise distinct
`half_branch_map` entries, and a single nonzero `hb_between_branches` count
at `(0, 0, 1)`. -/
def exampleState : CarryingState where
  train_paths := fun r => if r = 0 then [2, 0] else if r = 1 then [0, 3] else []
  half_branch_map := fun a r => 10 * (a : Int) + (r : Int)
  hb_between_branches := fun a i j => if a = 0 ∧ i = 0 ∧ j = 1 then 1 else 0
  cusp_index_offset := 2
  cusp_map := fun _ => 0

/-- A small track on which branch `1` is collapsible and left-turning: its
endpoint switch is `2` and `outgoing_branch(2, 0) = -1`. -/
def leftTurningTT : SmallTT where
  is_trivalent := true
  branch_type_collapsible := fun _ => true
  branch_endpoint := fun _ => 2
  outgoing_branch := fun sw pos => if sw = 2 ∧ pos = 0 then -1 else 9

/-- A small track on which branch `1` is collapsible and right-turning:
`outgoing_branch(2, 0) ≠ -1`. -/
def rightTurningTT : SmallTT where
  is_trivalent := true
  branch_type_collapsible := fun _ => true
  branch_endpoint := fun _ => 2
  outgoing_branch := fun _ _ => 9

/-- A small track violating the trivalence precondition of
`delete_branch_from_small`. -/
def nonTrivalentTT : SmallTT where
  is_trivalent := false
  branch_type_collapsible := fun _ => true
  branch_endpoint := fun _ => 2
  outgoing_branch := fun _ _ => 9

/-- Concrete track data: branches `[1, 2]`, at most `3` branches when made
trivalent. -/
def exampleTrack : TrackData where
  branches := [1, 2]
  num_branches_if_made_trivalent := 3

/-- Indexwise reading of `List.all` over a `zipWith`: the combined test holds
of every position below both lengths. -/
theorem zipWith_all_index {α : Type} (p : α → Bool) (f : Int → Int → α) :
    ∀ (u v : List Int), ((List.zipWith f u v).all p = true ↔
      ∀ i, i < u.length → i < v.length →
        p (f (u.getD i 0) (v.getD i 0)) = true) := by
  intro u
  induction u with
  | nil => intro v; simp
  | cons x u ih =>
    intro v
    cases v with
    | nil => simp
    | cons y v =>
      simp only [List.zipWith_cons_cons, List.all_cons, Bool.and_eq_true,
        ih v, List.length_cons]
      constructor
      · rintro ⟨h0, h⟩ i hi1 hi2
        cases i with
        | zero => simpa using h0
        | succ n =>
          simpa using h n (Nat.lt_of_succ_lt_succ hi1)
            (Nat.lt_of_succ_lt_succ hi2)
      · intro h
        refine ⟨by simpa using h 0 (Nat.succ_pos _) (Nat.succ_pos _),
          fun n hn1 hn2 => ?_⟩
        simpa using h (n + 1) (Nat.succ_lt_succ hn1) (Nat.succ_lt_succ hn2)

/-- Componentwise reading of `is_smaller_or_equal` on equal-length vectors. -/
theorem is_smaller_or_equal_iff (u v : List Int) (h : u.length = v.length) :
    is_smaller_or_equal u v = true ↔
      ∀ i, i < u.length → 0 ≤ v.getD i 0 - u.getD i 0 := by
  unfold is_smaller_or_equal
  rw [zipWith_all_index]
  constructor
  · intro hh i hi
    simpa using hh i hi (by omega)
  · intro hh i hi1 hi2
    simpa using hh i hi1

/-- Componentwise reading of `is_smaller` on equal-length vectors. -/
theorem is_smaller_iff (u v : List Int) (h : u.length = v.length) :
    is_smaller u v = true ↔
      ∀ i, i < u.length → 0 < v.getD i 0 - u.getD i 0 := by
  unfold is_smaller
  rw [zipWith_all_index]
  constructor
  · intro hh i hi
    simpa using hh i hi (by omega)
  · intro hh i hi1 hi2
    simpa using hh i hi1

/-- Componentwise reading of `is_equal` on equal-length vectors. -/
theorem is_equal_iff (u v : List Int) (h : u.length = v.length) :
    is_equal u v = true ↔ ∀ i, i < u.length → v.getD i 0 = u.getD i 0 := by
  unfold is_equal
  rw [zipWith_all_index]
  constructor
  · intro hh i hi
    simpa using hh i hi (by omega)
  · intro hh i hi1 hi2
    simpa using hh i hi1

/-- C9: over equal-length integer vectors, `is_smaller_or_equal u v` holds
exactly when every component of `v - u` is `≥ 0`, `is_smaller u v` exactly
when every component of `v - u` is `> 0`, and `is_equal u v` exactly when
both `is_smaller_or_equal u v` and `is_smaller_or_equal v u` hold. -/
theorem order_predicates_componentwise (u v : List Int)
    (h : u.length = v.length) :
    (is_smaller_or_equal u v = true ↔
      ∀ i, i < u.length → 0 ≤ v.getD i 0 - u.getD i 0) ∧
    (is_smaller u v = true ↔
      ∀ i, i < u.length → 0 < v.getD i 0 - u.getD i 0) ∧
    (is_equal u v = true ↔
      (is_smaller_or_equal u v = true ∧ is_smaller_or_equal v u = true)) := by
  refine ⟨is_smaller_or_equal_iff u v h, is_smaller_iff u v h, ?_⟩
  rw [is_equal_iff u v h, is_smaller_or_equal_iff u v h,
    is_smaller_or_equal_iff v u h.symm]
  constructor
  · intro hh
    refine ⟨fun i hi => ?_, fun i hi => ?_⟩
    · have := hh i hi
      omega
    · have := hh i (by omega)
      omega
  · rintro ⟨ha, hb⟩ i hi
    have h1 := ha i hi
    have h2 := hb i (by omega)
    omega

/-- C9 witness: the comparison predicates at the equal-length concrete
vectors `[1,2]` and `[2,3]`. -/
theorem order_predicates_componentwise_check :
    ([1, 2] : List Int).length = ([2, 3] : List Int).length ∧
    ((is_smaller_or_equal [1, 2] [2, 3] = true ↔
      ∀ i, i < ([1, 2] : List Int).length →
        0 ≤ ([2, 3] : List Int).getD i 0 - ([1, 2] : List Int).getD i 0) ∧
    (is_smaller [1, 2] [2, 3] = true ↔
      ∀ i, i < ([1, 2] : List Int).length →
        0 < ([2, 3] : List Int).getD i 0 - ([1, 2] : List Int).getD i 0) ∧
    (is_equal [1, 2] [2, 3] = true ↔
      (is_smaller_or_equal [1, 2] [2, 3] = true ∧
        is_smaller_or_equal [2, 3] [1, 2] = true))) :=
  ⟨rfl, order_predicates_componentwise [1, 2] [2, 3] rfl⟩

/-- C1: evaluated at the spec's own examples, the embedded `shortest_paths`
raises `TypeError` on the tie example `[1,2], [1,2], [3,3]` (the success
branch executes `ls = [indices(i)]`, calling the list instead of indexing it)
rather than returning the two tied minimal indices, while the incomparable
example `[1,2], [2,1]` reaches the documented no-minimum `ValueError`. -/
theorem shortest_paths_tie_example_raises :
    shortest_paths tiePaths [1, 2, 3] =
      Except.error (PyErr.typeError "the list indices is not callable") ∧
    shortest_paths incomparablePaths [1, 2] =
      Except.error (PyErr.valueError "There is no shortest path!") :=
  ⟨rfl, rfl⟩

/-- C3: at the spec's scenario — stored vectors `[2,0]` (row 0) and `[0,3]`
(row 1) over a 2-branch large track — `append` does not produce `[2,3]` and
does not move the end half-branch: its first statement calls `_path_index`,
which raises `NameError` on the undefined name `BRANCH`, so the call raises
with the carrying data untouched. -/
theorem append_raises_name_error :
    append exampleState PathType.BRANCH 1 PathType.BRANCH 2 =
      PyOutcome.raised (PyErr.nameError "BRANCH") exampleState :=
  rfl

/-- C4 counterexample: at the concrete state whose only nonzero
`hb_between_branches` count sits at `(0, 0, 1)`, `trim 1 2` changes the entry
`(0, 0, 0)` — an entry of the destination's own row — so the claim that the
destination's row side is left unchanged is false. -/
theorem trim_changes_destination_row :
    (trim exampleState 1 2).hb_between_branches 0 0 0 ≠
      exampleState.hb_between_branches 0 0 0 := by
  decide

/-- C4 amended: for nonzero signed indices, `trim` decreases the destination
row of `train_paths` by the source row (all other rows unchanged), leaves
every entry of `half_branch_map` unchanged, decreases the destination column
of `hb_between_branches` by the source column — which includes the diagonal
entry sitting in the destination's own row — and leaves every
`hb_between_branches` entry outside the destination column (in particular the
rest of the destination's row) unchanged. -/
theorem trim_subtracts_column_only (s : CarryingState)
    (from_idx sub_idx : Int) (h1 : from_idx ≠ 0) (h2 : sub_idx ≠ 0) :
    (trim s from_idx sub_idx).train_paths (from_idx.natAbs - 1) =
      List.zipWith (· - ·) (s.train_paths (from_idx.natAbs - 1))
        (s.train_paths (sub_idx.natAbs - 1)) ∧
    (∀ r, r ≠ from_idx.natAbs - 1 →
      (trim s from_idx sub_idx).train_paths r = s.train_paths r) ∧
    (trim s from_idx sub_idx).half_branch_map = s.half_branch_map ∧
    (∀ a i, (trim s from_idx sub_idx).hb_between_branches a i
        (from_idx.natAbs - 1) =
      s.hb_between_branches a i (from_idx.natAbs - 1) -
        s.hb_between_branches a i (sub_idx.natAbs - 1)) ∧
    (∀ a i j, j ≠ from_idx.natAbs - 1 →
      (trim s from_idx sub_idx).hb_between_branches a i j =
        s.hb_between_branches a i j) := by
  refine ⟨by simp [trim], fun r hr => by simp [trim, hr], rfl,
    fun a i => by simp [trim], fun a i j hj => by simp [trim, hj]⟩

/-- C4 witness: `trim 1 2` at the concrete state subtracts row 1 from row 0
of `train_paths`, leaves `half_branch_map` untouched, and subtracts column 1
from column 0 of `hb_between_branches`. -/
theorem trim_subtracts_column_only_check :
    (1 : Int) ≠ 0 ∧ (2 : Int) ≠ 0 ∧
    (trim exampleState 1 2).train_paths 0 = [2, -3] ∧
    (trim exampleState 1 2).half_branch_map = exampleState.half_branch_map ∧
    (trim exampleState 1 2).hb_between_branches 0 0 0 = -1 := by
  have h := trim_subtracts_column_only exampleState 1 2 (by decide) (by decide)
  exact ⟨by decide, by decide, h.1, h.2.2.1, h.2.2.2.1 0 0⟩

/-- C5: `identity_map` never returns a carrying map: at the concrete track
with branches `[1, 2]` and at most `3` branches under trivalent refinement,
it raises the `TypeError` coming from the misspelled keyword argument in
`np.zeros(max_num_switches, dytpe=np.int)`, so no identity `train_paths`
matrix is ever delivered. -/
theorem identity_map_type_error :
    identity_map exampleTrack =
      Except.error (PyErr.typeError "dytpe is an invalid keyword argument") :=
  rfl

/-- C6: at a trivalent small track whose branch `1` is collapsible and
left-turning, `delete_branch_from_small` performs the zeroing and then raises
`AttributeError` on `_branch_to_cusp` (an attribute no constructor creates),
so the cusp measure rows are never zeroed and no cusp back-pointer is
cleared. -/
theorem delete_left_turning_attribute_error :
    delete_branch_from_small leftTurningTT exampleState 1 =
      PyOutcome.raised (PyErr.attributeError "_branch_to_cusp")
        (delete_zeroing exampleState 1) :=
  rfl

/-- C7: at a trivalent small track whose branch `1` is collapsible and
right-turning, `delete_branch_from_small` completes silently (the
right-turning arm of the code is a bare `pass`): it returns normally with
only the zeroing performed, raising no unsupported-configuration error. -/
theorem delete_right_turning_silent :
    delete_branch_from_small rightTurningTT exampleState 1 =
      PyOutcome.ok (delete_zeroing exampleState 1) :=
  rfl

/-- C10: when the trivalence or collapsibility precondition fails,
`delete_branch_from_small` raises `AssertionError` with the receiver already
mutated by the zeroing that precedes the `assert`s: the branch's
`train_paths` row is all zeros, both signed `half_branch_map` entries are the
unset sentinel `0`, and both `hb_between_branches` rows are zeroed. -/
theorem delete_branch_mutates_before_asserts (tt : SmallTT)
    (s : CarryingState) (b : Int) (hb0 : b ≠ 0)
    (hpre : tt.is_trivalent = false ∨ tt.branch_type_collapsible b = false) :
    delete_branch_from_small tt s b =
      PyOutcome.raised PyErr.assertionError (delete_zeroing s b) ∧
    (delete_zeroing s b).train_paths (b.natAbs - 1) =
      (s.train_paths (b.natAbs - 1)).map (fun _ => 0) ∧
    (delete_zeroing s b).half_branch_map 0 (b.natAbs - 1) = 0 ∧
    (delete_zeroing s b).half_branch_map 1 (b.natAbs - 1) = 0 ∧
    (∀ j, (delete_zeroing s b).hb_between_branches 0 (b.natAbs - 1) j = 0) ∧
    (∀ j, (delete_zeroing s b).hb_between_branches 1 (b.natAbs - 1) j = 0) := by
  have habs : (0 : Int) < |b| := abs_pos.mpr hb0
  have e1 : to_index |b| = (0, b.natAbs - 1) := by
    simp [to_index, habs, Int.natAbs_abs]
  have e2 : to_index (-|b|) = (1, b.natAbs - 1) := by
    have h : ¬ (0 : Int) < -|b| := by
      have := abs_nonneg b
      intro hc
      linarith
    simp [to_index, h, Int.natAbs_abs]
  constructor
  · rcases hpre with hpre | hpre
    · simp [delete_branch_from_small, hpre, hb0, Int.natAbs_abs]
    · cases htt : tt.is_trivalent <;>
        simp [delete_branch_from_small, hpre, htt, hb0, Int.natAbs_abs]
  refine ⟨?_, ?_, ?_, fun j => ?_, fun j => ?_⟩ <;>
    simp [delete_zeroing, e1, e2]

/-- C10 witness: deleting branch `1` on a non-trivalent small track raises
`AssertionError`, with the `train_paths` row of the branch already zeroed. -/
theorem delete_branch_mutates_before_asserts_check :
    (1 : Int) ≠ 0 ∧
    (nonTrivalentTT.is_trivalent = false ∨
      nonTrivalentTT.branch_type_collapsible 1 = false) ∧
    delete_branch_from_small nonTrivalentTT exampleState 1 =
      PyOutcome.raised PyErr.assertionError (delete_zeroing exampleState 1) ∧
    (delete_zeroing exampleState 1).train_paths 0 = [0, 0] := by
  have h := delete_branch_mutates_before_asserts nonTrivalentTT exampleState 1
    (by decide) (Or.inl rfl)
  exact ⟨by decide, Or.inl rfl, h.1, h.2.1⟩
